import Mathlib

/-!
Verification of the Drone Services backend (`src/main.py`).

Documents stored in the document store are Python dicts: ordered association
lists from string keys to values.  The value universe distinguishes the two
kinds of values that `serialize_doc` inspects — BSON `ObjectId` identifiers
(recognised by `isinstance(v, ObjectId)`) and `datetime` values (recognised
by `hasattr(v, "isoformat")`) — from all other JSON-able values.

The store client (`database.py`) and the schema layer (`schemas.py`) are
external collaborators: route handlers are embedded as pure functions
parameterised over the outcome of the one store call they make
(`Except` of a fault message or a result), mirroring the `try/except`
structure of each handler.
-/

set_option autoImplicit false
set_option maxRecDepth 8192

namespace DroneAPI

/-- A stored value.  `objectId oid` carries `str(oid)`; `datetime iso`
carries `v.isoformat()`.  Other constructors cover the remaining JSON-able
values, none of which has an `isoformat` attribute or is an `ObjectId`. -/
inductive Value where
  | objectId (oid : String)
  | datetime (iso : String)
  | str (s : String)
  | int (n : Int)
  | bool (b : Bool)
  | null
deriving DecidableEq, Repr

/-- A Python dict, as an ordered association list with (by dict invariant)
pairwise-distinct keys. -/
abbrev Doc := List (String × Value)

/-- `hasattr(v, "isoformat")`: true exactly for datetime values. -/
def Value.hasIsoformat : Value → Bool
  | .datetime _ => true
  | _ => false

/-- `v.isoformat()` as used in the conversion loop: a datetime becomes its
ISO-8601 string; other values are untouched by the loop. -/
def Value.isoformat : Value → Value
  | .datetime iso => .str iso
  | v => v

/-- Dict lookup `d[k]` / `k in d` (first matching entry). -/
def dlookup (k : String) : Doc → Option Value
  | [] => Option.none
  | (k', v) :: rest => if k' = k then some v else dlookup k rest

/-- `d.pop(k)`: remove the entry with key `k` (the first occurrence). -/
def dpop (k : String) : Doc → Doc
  | [] => []
  | (k', v) :: rest => if k' = k then rest else (k', v) :: dpop k rest

/-- `d[k] = v`: replace the value in place if `k` is present, otherwise
append the new entry at the end (Python dict insertion order). -/
def dset (k : String) (v : Value) : Doc → Doc
  | [] => [(k, v)]
  | (k', v') :: rest => if k' = k then (k, v) :: rest else (k', v') :: dset k v rest

/-- The keys of the dict are pairwise distinct (Python dict invariant). -/
def keysNodup (d : Doc) : Prop := (d.map Prod.fst).Nodup

instance (d : Doc) : Decidable (keysNodup d) := by
  unfold keysNodup; infer_instance

/-- One iteration of the conversion loop
`for k, v in list(out.items()): if hasattr(v, "isoformat"): out[k] = v.isoformat()`:
an in-place update keeps the entry's position, so the loop is a map over
the entries. -/
def convEntry (p : String × Value) : String × Value :=
  if p.2.hasIsoformat then (p.1, p.2.isoformat) else p

/-- `serialize_doc` (src/main.py lines 22–30): copy the document; if `_id`
is present and is an `ObjectId`, pop it and store its string form under
`id`; then replace every value with an `isoformat` attribute by its
ISO-8601 string. -/
def serialize_doc (doc : Doc) : Doc :=
  let out := doc
  let out :=
    match dlookup "_id" out with
    | some (Value.objectId oid) => dset "id" (Value.str oid) (dpop "_id" out)
    | _ => out
  out.map convEntry

/-- Result of a route handler: a normal return (HTTP 200 with a JSON body)
or a raised `HTTPException(status_code, detail)`. -/
inductive HttpResult (α : Type) where
  | ok (body : α)
  | httpError (status : Nat) (detail : String)
deriving DecidableEq, Repr

def HttpResult.statusCode {α : Type} : HttpResult α → Nat
  | .ok _ => 200
  | .httpError s _ => s

/-- Response model of `POST /api/appointments`. -/
structure AppointmentResponse where
  id : String
  message : String
deriving DecidableEq, Repr

/-- `create_appointment` (src/main.py lines 86–92), parameterised over the
outcome of `create_document("appointment", appt)`: a fault message or the
inserted identifier. -/
def create_appointment (insertResult : Except String String) : HttpResult AppointmentResponse :=
  match insertResult with
  | .ok inserted_id => .ok ⟨inserted_id, "Appointment request received"⟩
  | .error e => .httpError 500 e

/-- `DEFAULT_GALLERY` (src/main.py lines 106–127). -/
def DEFAULT_GALLERY : List Doc :=
  [ [ ("url", Value.str "https://images.unsplash.com/photo-1504194104404-433180773017?q=80&w=1200&auto=format&fit=crop"),
      ("title", Value.str "Coastal Cliffs"),
      ("category", Value.str "Nature") ],
    [ ("url", Value.str "https://images.unsplash.com/photo-1501785888041-af3ef285b470?q=80&w=1200&auto=format&fit=crop"),
      ("title", Value.str "Mountain Range"),
      ("category", Value.str "Landscapes") ],
    [ ("url", Value.str "https://images.unsplash.com/photo-1500530855697-b586d89ba3ee?q=80&w=1200&auto=format&fit=crop"),
      ("title", Value.str "City From Above"),
      ("category", Value.str "Real Estate") ],
    [ ("url", Value.str "https://images.unsplash.com/photo-1477959858617-67f85cf4f1df?q=80&w=1200&auto=format&fit=crop"),
      ("title", Value.str "Golden Fields"),
      ("category", Value.str "Agriculture") ] ]

/-- Body of the `GET /api/gallery` response. -/
structure GalleryResponse where
  items : List Doc
  count : Nat
  source : String
deriving DecidableEq, Repr

/-- `get_gallery` (src/main.py lines 130–141), parameterised over the
outcome of `get_documents("galleryimage")`.  The whole body runs inside
`try/except`, with the except branch returning the default payload. -/
def get_gallery (store : Except String (List Doc)) : HttpResult GalleryResponse :=
  match store with
  | .ok stored =>
    let stored_serialized := stored.map serialize_doc
    if stored_serialized.isEmpty then
      .ok ⟨DEFAULT_GALLERY, DEFAULT_GALLERY.length, "default"⟩
    else
      .ok ⟨stored_serialized, stored_serialized.length, "database"⟩
  | .error _ => .ok ⟨DEFAULT_GALLERY, DEFAULT_GALLERY.length, "default"⟩

/-- Python truthiness of `os.getenv(...)`: unset (`None`) and the empty
string are falsy. -/
def pyTruthy : Option String → Bool
  | some s => decide (s ≠ "")
  | Option.none => false

/-- Observable state of the `db` handle used by `GET /test`: its `name`
attribute (absent modelled as `none`) and the outcome of
`db.list_collection_names()`. -/
structure DbState where
  name : Option String
  list_collection_names : Except String (List String)
deriving Repr

/-- Environment of one `GET /test` request: the global `db` (possibly
`None`) and the two environment variables. -/
structure TestConfig where
  db : Option DbState
  env_DATABASE_URL : Option String
  env_DATABASE_NAME : Option String
deriving Repr

/-- The diagnostics mapping returned by `GET /test`.  `database_url` and
`database_name` start as `None` (hence `Option String`). -/
structure TestResponse where
  backend : String
  database : String
  database_url : Option String
  database_name : Option String
  connection_status : String
  collections : List String
deriving DecidableEq, Repr

/-- `test_database` (src/main.py lines 43–76): build the initial response,
inspect `db` (with an inner `try/except` around
`db.list_collection_names()` whose fault is truncated to 50 characters),
then unconditionally overwrite the two env fields. -/
def test_database (cfg : TestConfig) : TestResponse :=
  let response : TestResponse :=
    { backend := "✅ Running"
      database := "❌ Not Available"
      database_url := Option.none
      database_name := Option.none
      connection_status := "Not Connected"
      collections := [] }
  let response :=
    match cfg.db with
    | some d =>
      let response :=
        { response with
          database := "✅ Available"
          database_url := some (if pyTruthy cfg.env_DATABASE_URL then "✅ Set" else "❌ Not Set")
          database_name := some (match d.name with
            | some n => if n = "" then "✅ Connected" else n
            | Option.none => "✅ Connected")
          connection_status := "Connected" }
      match d.list_collection_names with
      | .ok collections =>
        { response with
          collections := collections.take 10
          database := "✅ Connected & Working" }
      | .error e =>
        { response with database := "⚠️  Connected but Error: " ++ e.take 50 }
    | Option.none =>
      { response with database := "⚠️  Available but not initialized" }
  { response with
    database_url := some (if pyTruthy cfg.env_DATABASE_URL then "✅ Set" else "❌ Not Set")
    database_name := some (if pyTruthy cfg.env_DATABASE_NAME then "✅ Set" else "❌ Not Set") }

/-- The `GET /test` handler never raises, so FastAPI answers HTTP 200 with
the diagnostics mapping. -/
def test_endpoint (cfg : TestConfig) : HttpResult TestResponse :=
  .ok (test_database cfg)

/-- Heap-level view of one call `serialize_doc(doc)`: the heap is the list
of live dicts, a document is a reference into it.  `out = {**doc}` allocates
a fresh dict; every subsequent mutation (`pop`, key assignment) targets the
fresh dict only, so the call extends the heap with the serialized copy and
returns its reference. -/
def serialize_doc_call (heap : List Doc) (r : Nat) : List Doc × Nat :=
  (heap ++ [serialize_doc (heap.getD r [])], heap.length)

/-! ### Dictionary lemmas -/

theorem convEntry_eq (p : String × Value) : convEntry p = (p.1, p.2.isoformat) := by
  obtain ⟨k, v⟩ := p
  cases v <;> rfl

theorem isoformat_of_not_datetime (v : Value) (h : v.hasIsoformat = false) :
    v.isoformat = v := by
  cases v <;> simp_all [Value.hasIsoformat, Value.isoformat]

theorem dlookup_map_convEntry (k : String) (d : Doc) :
    dlookup k (d.map convEntry) = (dlookup k d).map Value.isoformat := by
  induction d with
  | nil => rfl
  | cons p rest ih =>
    obtain ⟨k', v⟩ := p
    rw [List.map_cons, convEntry_eq]
    by_cases h : k' = k <;> simp [dlookup, h, ih]

theorem map_convEntry_of_no_datetime (d : Doc) (h : ∀ p ∈ d, p.2.hasIsoformat = false) :
    d.map convEntry = d := by
  induction d with
  | nil => rfl
  | cons p rest ih =>
    rw [List.map_cons, convEntry_eq,
      isoformat_of_not_datetime p.2 (h p (List.mem_cons_self p rest)),
      ih (fun q hq => h q (List.mem_cons_of_mem p hq))]

theorem dlookup_dset_same (k : String) (v : Value) (d : Doc) :
    dlookup k (dset k v d) = some v := by
  induction d with
  | nil => simp [dset, dlookup]
  | cons p rest ih =>
    obtain ⟨k', v'⟩ := p
    by_cases h : k' = k <;> simp [dset, dlookup, h, ih]

theorem dlookup_dset_of_ne (k k' : String) (hkk : k' ≠ k) (v : Value) (d : Doc) :
    dlookup k' (dset k v d) = dlookup k' d := by
  induction d with
  | nil => simp [dset, dlookup, Ne.symm hkk]
  | cons p rest ih =>
    obtain ⟨k'', v''⟩ := p
    by_cases h : k'' = k
    · subst h
      simp [dset, dlookup, Ne.symm hkk]
    · simp [dset, dlookup, h, ih]

theorem dlookup_dpop_of_ne (k k' : String) (hkk : k' ≠ k) (d : Doc) :
    dlookup k' (dpop k d) = dlookup k' d := by
  induction d with
  | nil => rfl
  | cons p rest ih =>
    obtain ⟨k'', v''⟩ := p
    by_cases h : k'' = k
    · subst h
      simp [dpop, dlookup, Ne.symm hkk]
    · simp [dpop, dlookup, h, ih]

theorem dlookup_eq_none_of_not_mem (k : String) (d : Doc)
    (h : k ∉ d.map Prod.fst) : dlookup k d = Option.none := by
  induction d with
  | nil => rfl
  | cons p rest ih =>
    obtain ⟨k', v⟩ := p
    simp only [List.map_cons, List.mem_cons] at h
    push_neg at h
    simp [dlookup, Ne.symm h.1, ih h.2]

theorem dlookup_dpop_same (k : String) (d : Doc) (hnd : keysNodup d) :
    dlookup k (dpop k d) = Option.none := by
  induction d with
  | nil => rfl
  | cons p rest ih =>
    obtain ⟨k', v⟩ := p
    have hnd' : keysNodup rest := (List.nodup_cons.mp hnd).2
    by_cases h : k' = k
    · subst h
      simp only [dpop, if_pos rfl]
      exact dlookup_eq_none_of_not_mem k' rest (List.nodup_cons.mp hnd).1
    · simp [dpop, dlookup, h, ih hnd']

/-- Case analysis on the identifier branch of `serialize_doc`. -/
theorem serialize_doc_cases (doc : Doc) :
    (∃ oid, dlookup "_id" doc = some (Value.objectId oid) ∧
      serialize_doc doc = (dset "id" (Value.str oid) (dpop "_id" doc)).map convEntry) ∨
    ((∀ oid, dlookup "_id" doc ≠ some (Value.objectId oid)) ∧
      serialize_doc doc = doc.map convEntry) := by
  cases hview : dlookup "_id" doc with
  | none =>
    refine Or.inr ⟨?_, ?_⟩
    · intro oid h
      simp at h
    · simp only [serialize_doc, hview]
  | some v =>
    cases v with
    | objectId oid =>
      refine Or.inl ⟨oid, rfl, ?_⟩
      simp only [serialize_doc, hview]
    | datetime iso =>
      refine Or.inr ⟨?_, ?_⟩
      · intro oid h
        simp at h
      · simp only [serialize_doc, hview]
    | str s =>
      refine Or.inr ⟨?_, ?_⟩
      · intro oid h
        simp at h
      · simp only [serialize_doc, hview]
    | int n =>
      refine Or.inr ⟨?_, ?_⟩
      · intro oid h
        simp at h
      · simp only [serialize_doc, hview]
    | bool b =>
      refine Or.inr ⟨?_, ?_⟩
      · intro oid h
        simp at h
      · simp only [serialize_doc, hview]
    | null =>
      refine Or.inr ⟨?_, ?_⟩
      · intro oid h
        simp at h
      · simp only [serialize_doc, hview]

theorem string_take_50_length_le (e : String) : (e.take 50).length ≤ 50 := by
  rw [← String.length_data, String.data_take, List.length_take]
  exact Nat.min_le_left _ _

/-! ### Claims -/

/-- **C1.** For every document that contains the opaque identifier field
(key `_id` holding an `ObjectId`), `serialize_doc` returns a mapping that
has a string field named `id` holding the stringified identifier, and no
field under the original key `_id`. -/
theorem serialize_doc_id_field (doc : Doc) (oid : String)
    (hnd : keysNodup doc)
    (hid : dlookup "_id" doc = some (Value.objectId oid)) :
    dlookup "id" (serialize_doc doc) = some (Value.str oid) ∧
    dlookup "_id" (serialize_doc doc) = Option.none := by
  rcases serialize_doc_cases doc with ⟨oid', hid', heq⟩ | ⟨hno, -⟩
  · rw [hid] at hid'
    simp only [Option.some.injEq, Value.objectId.injEq] at hid'
    subst hid'
    constructor
    · rw [heq, dlookup_map_convEntry, dlookup_dset_same]
      rfl
    · rw [heq, dlookup_map_convEntry,
        dlookup_dset_of_ne "id" "_id" (by decide) _ _,
        dlookup_dpop_same "_id" doc hnd]
      rfl
  · exact absurd hid (hno oid)

theorem serialize_doc_id_field_witness :
    dlookup "id" (serialize_doc
      [("_id", Value.objectId "64a1"), ("when", Value.datetime "2020-01-02T03:04:05")]) =
      some (Value.str "64a1") ∧
    dlookup "_id" (serialize_doc
      [("_id", Value.objectId "64a1"), ("when", Value.datetime "2020-01-02T03:04:05")]) =
      Option.none :=
  serialize_doc_id_field _ "64a1" (by decide) (by decide)

/-- **C7.** `serialize_doc` is the identity (hence idempotent) on
already-normalized documents: no `_id` entry and no timestamp-valued
entry means the output equals the input. -/
theorem serialize_doc_identity_on_normalized (doc : Doc)
    (hid : dlookup "_id" doc = Option.none)
    (hts : ∀ p ∈ doc, p.2.hasIsoformat = false) :
    serialize_doc doc = doc := by
  rcases serialize_doc_cases doc with ⟨oid, hid', -⟩ | ⟨-, heq⟩
  · rw [hid] at hid'
    exact Option.noConfusion hid'
  · rw [heq]
    exact map_convEntry_of_no_datetime doc hts

theorem serialize_doc_identity_on_normalized_witness :
    serialize_doc [("title", Value.str "a"), ("n", Value.int 2)] =
      [("title", Value.str "a"), ("n", Value.int 2)] :=
  serialize_doc_identity_on_normalized _ (by decide) (by decide)

/-- **C4 (counterexample).** The claim "every timestamp value is replaced
by its ISO-8601 string" fails on a document holding both an `ObjectId`
under `_id` and a timestamp under `id`: the `id` assignment overwrites the
timestamp with the stringified identifier, so the ISO string never
appears. -/
theorem serialize_doc_timestamp_counterexample :
    dlookup "id" [("_id", Value.objectId "64a1"), ("id", Value.datetime "2020-01-01T00:00:00")] =
      some (Value.datetime "2020-01-01T00:00:00") ∧
    serialize_doc [("_id", Value.objectId "64a1"), ("id", Value.datetime "2020-01-01T00:00:00")] =
      [("id", Value.str "64a1")] ∧
    dlookup "id" (serialize_doc
      [("_id", Value.objectId "64a1"), ("id", Value.datetime "2020-01-01T00:00:00")]) ≠
      some (Value.str "2020-01-01T00:00:00") :=
  ⟨by decide, by decide, by decide⟩

theorem isoformat_self_of_lookup_no_datetime (doc : Doc) (k : String) (v : Value)
    (hv : dlookup k doc = some v)
    (hnodt : ∀ (k' s : String), dlookup k' doc ≠ some (Value.datetime s)) :
    v.isoformat = v := by
  cases v with
  | datetime s => exact absurd hv (hnodt k s)
  | objectId o => rfl
  | str s => rfl
  | int n => rfl
  | bool b => rfl
  | null => rfl

/-- **C4 (amended).** For every input document that does not hold both an
`ObjectId` under `_id` and a pre-existing `id` entry (in that case the
`id` assignment overwrites the old value with the stringified identifier),
`serialize_doc` replaces every timestamp value with its ISO-8601 string at
the same key, and for every such document with no timestamp-valued field,
all non-identifier fields of the output equal the corresponding input
fields. -/
theorem serialize_doc_timestamps_amended (doc : Doc)
    (hcoll : (∀ oid, dlookup "_id" doc ≠ some (Value.objectId oid)) ∨
      dlookup "id" doc = Option.none) :
    (∀ (k s : String), dlookup k doc = some (Value.datetime s) →
      dlookup k (serialize_doc doc) = some (Value.str s)) ∧
    ((∀ (k s : String), dlookup k doc ≠ some (Value.datetime s)) →
      ∀ k : String, k ≠ "_id" → (dlookup k doc).isSome = true →
        dlookup k (serialize_doc doc) = dlookup k doc) := by
  rcases serialize_doc_cases doc with ⟨oid, hid, heq⟩ | ⟨hno, heq⟩
  · have hnoid : dlookup "id" doc = Option.none := by
      rcases hcoll with hcoll | hcoll
      · exact absurd hid (hcoll oid)
      · exact hcoll
    constructor
    · intro k s hk
      have hk_ne_id : k ≠ "id" := by
        intro he
        subst he
        rw [hnoid] at hk
        exact Option.noConfusion hk
      have hk_ne_uid : k ≠ "_id" := by
        intro he
        subst he
        rw [hid] at hk
        exact absurd (Option.some.inj hk) (by simp)
      rw [heq, dlookup_map_convEntry, dlookup_dset_of_ne _ _ hk_ne_id _ _,
        dlookup_dpop_of_ne _ _ hk_ne_uid _, hk]
      rfl
    · intro hnodt k hk_ne_uid hk_some
      obtain ⟨v, hv⟩ := Option.isSome_iff_exists.mp hk_some
      have hk_ne_id : k ≠ "id" := by
        intro he
        subst he
        rw [hnoid] at hv
        exact Option.noConfusion hv
      rw [heq, dlookup_map_convEntry, dlookup_dset_of_ne _ _ hk_ne_id _ _,
        dlookup_dpop_of_ne _ _ hk_ne_uid _, hv, Option.map_some',
        isoformat_self_of_lookup_no_datetime doc k v hv hnodt]
  · constructor
    · intro k s hk
      rw [heq, dlookup_map_convEntry, hk]
      rfl
    · intro hnodt k _ hk_some
      obtain ⟨v, hv⟩ := Option.isSome_iff_exists.mp hk_some
      rw [heq, dlookup_map_convEntry, hv, Option.map_some',
        isoformat_self_of_lookup_no_datetime doc k v hv hnodt]

theorem serialize_doc_timestamps_amended_witness :
    dlookup "scheduled" (serialize_doc
      [("scheduled", Value.datetime "2021-05-05T10:00:00"), ("n", Value.int 1)]) =
      some (Value.str "2021-05-05T10:00:00") :=
  (serialize_doc_timestamps_amended _ (Or.inr (by decide))).1
    "scheduled" "2021-05-05T10:00:00" (by decide)

/-- **C2.** If listing the `galleryimage` collection yields an empty list
or any store-level fault, `GET /api/gallery` answers HTTP 200 with exactly
the built-in default list (4 items, untouched), count 4 and source
`"default"`, and never an error response. -/
theorem gallery_default_fallback (store : Except String (List Doc))
    (h : store = Except.ok [] ∨ ∃ e, store = Except.error e) :
    get_gallery store = HttpResult.ok ⟨DEFAULT_GALLERY, 4, "default"⟩ ∧
    (get_gallery store).statusCode = 200 ∧
    DEFAULT_GALLERY.length = 4 := by
  rcases h with h | ⟨e, h⟩ <;> subst h <;> exact ⟨rfl, rfl, rfl⟩

theorem gallery_default_fallback_witness :
    get_gallery (Except.ok []) = HttpResult.ok ⟨DEFAULT_GALLERY, 4, "default"⟩ ∧
    (get_gallery (Except.ok [])).statusCode = 200 ∧
    DEFAULT_GALLERY.length = 4 :=
  gallery_default_fallback (Except.ok []) (Or.inl rfl)

/-- **C3.** If listing the `galleryimage` collection yields a non-empty
list of documents, `GET /api/gallery` answers with `serialize_doc` mapped
over that list, count equal to the number of stored documents, and source
`"database"`. -/
theorem gallery_database_branch (stored : List Doc) (h : stored ≠ []) :
    get_gallery (Except.ok stored) =
      HttpResult.ok ⟨stored.map serialize_doc, stored.length, "database"⟩ := by
  cases stored with
  | nil => exact absurd rfl h
  | cons d rest =>
    show HttpResult.ok (GalleryResponse.mk ((d :: rest).map serialize_doc)
        ((d :: rest).map serialize_doc).length "database") =
      HttpResult.ok (GalleryResponse.mk ((d :: rest).map serialize_doc)
        (d :: rest).length "database")
    rw [List.length_map]

theorem gallery_database_branch_witness :
    get_gallery (Except.ok [[("title", Value.str "x")]]) =
      HttpResult.ok
        ⟨([[("title", Value.str "x")]] : List Doc).map serialize_doc, 1, "database"⟩ :=
  gallery_database_branch [[("title", Value.str "x")]] (by decide)

/-- **C10.** Every `GET /api/gallery` response satisfies
`count = items.length`, in both the database-sourced and default-sourced
branches. -/
theorem gallery_count_invariant (store : Except String (List Doc)) (resp : GalleryResponse)
    (h : get_gallery store = HttpResult.ok resp) : resp.count = resp.items.length := by
  cases store with
  | error e =>
    have h' : HttpResult.ok (⟨DEFAULT_GALLERY, DEFAULT_GALLERY.length, "default"⟩ :
        GalleryResponse) = HttpResult.ok resp := h
    injection h' with h'
    subst h'
    rfl
  | ok stored =>
    cases stored with
    | nil =>
      have h' : HttpResult.ok (⟨DEFAULT_GALLERY, DEFAULT_GALLERY.length, "default"⟩ :
          GalleryResponse) = HttpResult.ok resp := h
      injection h' with h'
      subst h'
      rfl
    | cons d rest =>
      have h' : HttpResult.ok (⟨(d :: rest).map serialize_doc,
          ((d :: rest).map serialize_doc).length, "database"⟩ : GalleryResponse) =
          HttpResult.ok resp := h
      injection h' with h'
      subst h'
      rfl

theorem gallery_count_invariant_witness :
    (⟨DEFAULT_GALLERY, 4, "default"⟩ : GalleryResponse).count =
      (⟨DEFAULT_GALLERY, 4, "default"⟩ : GalleryResponse).items.length :=
  gallery_count_invariant (Except.error "db down") ⟨DEFAULT_GALLERY, 4, "default"⟩ rfl

/-- **C5.** `GET /test` always answers HTTP 200 and never propagates an
exception; a fault in the collection-listing check does not abort the env
checks and is captured in the `database` field as a message string whose
captured part is truncated to at most its first 50 characters. -/
theorem test_endpoint_fault_containment :
    (∀ cfg : TestConfig, (test_endpoint cfg).statusCode = 200) ∧
    (∀ (cfg : TestConfig) (d : DbState) (e : String),
      cfg.db = some d → d.list_collection_names = Except.error e →
      (test_database cfg).database = "⚠️  Connected but Error: " ++ e.take 50 ∧
      (e.take 50).length ≤ 50 ∧
      (test_database cfg).database_url =
        some (if pyTruthy cfg.env_DATABASE_URL then "✅ Set" else "❌ Not Set") ∧
      (test_database cfg).database_name =
        some (if pyTruthy cfg.env_DATABASE_NAME then "✅ Set" else "❌ Not Set")) := by
  refine ⟨fun cfg => rfl, ?_⟩
  intro cfg d e hdb hlist
  obtain ⟨db?, url, name⟩ := cfg
  obtain ⟨dname, dlist⟩ := d
  simp only at hdb hlist
  subst hdb
  subst hlist
  exact ⟨rfl, string_take_50_length_le e, rfl, rfl⟩

theorem test_endpoint_fault_containment_witness :
    ((test_endpoint ⟨some ⟨Option.none, Except.error "boom"⟩, some "mongodb://x",
        Option.none⟩).statusCode = 200) ∧
    ((test_database ⟨some ⟨Option.none, Except.error "boom"⟩, some "mongodb://x",
        Option.none⟩).database = "⚠️  Connected but Error: " ++ "boom".take 50) ∧
    (("boom".take 50).length ≤ 50) ∧
    ((test_database ⟨some ⟨Option.none, Except.error "boom"⟩, some "mongodb://x",
        Option.none⟩).database_url = some "✅ Set") ∧
    ((test_database ⟨some ⟨Option.none, Except.error "boom"⟩, some "mongodb://x",
        Option.none⟩).database_name = some "❌ Not Set") := by
  have h := test_endpoint_fault_containment
  have h1 := h.1 ⟨some ⟨Option.none, Except.error "boom"⟩, some "mongodb://x", Option.none⟩
  have h2 := h.2 ⟨some ⟨Option.none, Except.error "boom"⟩, some "mongodb://x", Option.none⟩
    ⟨Option.none, Except.error "boom"⟩ "boom" rfl rfl
  exact ⟨h1, h2.1, h2.2.1, h2.2.2.1, h2.2.2.2⟩

/-- **C6.** For a schema-valid `POST /api/appointments` request: a store
fault becomes an HTTP 500 whose detail is the underlying exception
message; a successful insert returns the new identifier under `id` plus a
message string. -/
theorem create_appointment_outcomes :
    (∀ e : String, create_appointment (Except.error e) = HttpResult.httpError 500 e ∧
      (create_appointment (Except.error e)).statusCode = 500) ∧
    (∀ newId : String, create_appointment (Except.ok newId) =
      HttpResult.ok ⟨newId, "Appointment request received"⟩) :=
  ⟨fun _ => ⟨rfl, rfl⟩, fun _ => rfl⟩

/-- **C9.** The `database_url` and `database_name` fields of a `GET /test`
response are exactly `"✅ Set"` or `"❌ Not Set"`, determined solely by the
two environment variables; whatever the store-connection check assigned to
them is overwritten before the response is returned (the fields do not
depend on the `db` state). -/
theorem test_env_flags (cfg : TestConfig) :
    ((test_database cfg).database_url =
      some (if pyTruthy cfg.env_DATABASE_URL then "✅ Set" else "❌ Not Set")) ∧
    ((test_database cfg).database_name =
      some (if pyTruthy cfg.env_DATABASE_NAME then "✅ Set" else "❌ Not Set")) ∧
    ((test_database cfg).database_url = some "✅ Set" ∨
      (test_database cfg).database_url = some "❌ Not Set") ∧
    ((test_database cfg).database_name = some "✅ Set" ∨
      (test_database cfg).database_name = some "❌ Not Set") ∧
    (∀ db' : Option DbState,
      (test_database { cfg with db := db' }).database_url =
        (test_database cfg).database_url ∧
      (test_database { cfg with db := db' }).database_name =
        (test_database cfg).database_name) := by
  refine ⟨rfl, rfl, ?_, ?_, fun db' => ⟨rfl, rfl⟩⟩
  · have hu : (test_database cfg).database_url =
        some (if pyTruthy cfg.env_DATABASE_URL then "✅ Set" else "❌ Not Set") := rfl
    rw [hu]
    by_cases h : pyTruthy cfg.env_DATABASE_URL = true
    · rw [if_pos h]
      exact Or.inl rfl
    · rw [if_neg h]
      exact Or.inr rfl
  · have hn : (test_database cfg).database_name =
        some (if pyTruthy cfg.env_DATABASE_NAME then "✅ Set" else "❌ Not Set") := rfl
    rw [hn]
    by_cases h : pyTruthy cfg.env_DATABASE_NAME = true
    · rw [if_pos h]
      exact Or.inl rfl
    · rw [if_neg h]
      exact Or.inr rfl

/-- **C8.** At the heap level, one call `serialize_doc(doc)` never mutates
its input: every dict that existed before the call (the input at reference
`r` included) is unchanged afterwards, and the returned reference is a
distinct, freshly allocated copy holding the serialized document. -/
theorem serialize_doc_no_mutation (heap : List Doc) (r : Nat) (h : r < heap.length) :
    (serialize_doc_call heap r).1.take heap.length = heap ∧
    (serialize_doc_call heap r).1.getD r [] = heap.getD r [] ∧
    (serialize_doc_call heap r).2 ≠ r ∧
    (serialize_doc_call heap r).1.getD (serialize_doc_call heap r).2 [] =
      serialize_doc (heap.getD r []) := by
  refine ⟨List.take_left heap _, List.getD_append _ _ _ _ h, ?_, ?_⟩
  · intro hc
    exact absurd (hc ▸ h) (lt_irrefl _)
  · show (heap ++ [serialize_doc (heap.getD r [])]).getD heap.length [] =
      serialize_doc (heap.getD r [])
    rw [List.getD_append_right _ _ _ _ (le_refl _), Nat.sub_self]
    rfl

theorem serialize_doc_no_mutation_witness :
    (serialize_doc_call [[("a", Value.str "b")]] 0).1.take 1 = [[("a", Value.str "b")]] ∧
    (serialize_doc_call [[("a", Value.str "b")]] 0).1.getD 0 [] =
      ([[("a", Value.str "b")]] : List Doc).getD 0 [] ∧
    (serialize_doc_call [[("a", Value.str "b")]] 0).2 ≠ 0 ∧
    (serialize_doc_call [[("a", Value.str "b")]] 0).1.getD
        (serialize_doc_call [[("a", Value.str "b")]] 0).2 [] =
      serialize_doc (([[("a", Value.str "b")]] : List Doc).getD 0 []) :=
  serialize_doc_no_mutation [[("a", Value.str "b")]] 0 (by decide)

end DroneAPI
